import Mathlib

/-!
Verification of the pxt-blockly field-overlay subsystem.

Shallow embedding of the relevant source functions:
* `FieldGridPicker.prototype.showEditor_` placement (grid picker popup geometry),
* `FieldNote.prototype.showEditor_` placement, pagination and audio-timer logic,
* `FieldNote` note-table generation, value validation and display text,
* `Blockly.FlyoutButton` callback wiring,
* `FieldGridPicker` tooltip configuration and disposal.

Coordinates are modelled as rationals (JS numbers restricted to the
exact arithmetic actually performed: additions, subtractions and
comparisons).  Note frequencies, which the source computes with
`Math.pow(2, (keyNumber - 49) / 12) * 440`, are modelled as real numbers
through the exact formula.
-/

/-! ### Grid picker placement

Embeds the positioning portion of `FieldGridPicker.prototype.showEditor_`:
the vertical flip and the horizontal clamp applied to `xy` before
`Blockly.WidgetDiv.position(xy.x, xy.y, ...)` is called.
-/

/-- Inputs read by the grid-picker placement code: `xy = getAbsoluteXY_()`
(anchor top-left), `borderBBox = getScaledBBox_()` (anchor size),
`paddingContainerSize` (measured overlay size), `windowSize` (viewport),
`scrollOffset`, the workspace RTL flag, and the upstream constant
`Blockly.FieldDropdown.CHECKMARK_OVERHANG`. -/
structure GridPlaceIn where
  xyX : ℚ
  xyY : ℚ
  bbW : ℚ
  bbH : ℚ
  contW : ℚ
  contH : ℚ
  winW : ℚ
  winH : ℚ
  scrX : ℚ
  scrY : ℚ
  checkmarkOverhang : ℚ
  rtl : Bool
  deriving DecidableEq

/-- The final `(x, y)` handed to `Blockly.WidgetDiv.position` by
`FieldGridPicker.prototype.showEditor_` (source lines 204-228):

```js
if (xy.y + paddingContainerSize.height + borderBBox.height >=
    windowSize.height + scrollOffset.y) {
  xy.y -= paddingContainerSize.height + 2;
} else {
  xy.y += borderBBox.height;
}
if (this.sourceBlock_.RTL) {
  xy.x += borderBBox.width;
  xy.x += Blockly.FieldDropdown.CHECKMARK_OVERHANG;
  if (xy.x < scrollOffset.x + paddingContainerSize.width) {
    xy.x = scrollOffset.x + paddingContainerSize.width;
  }
} else {
  xy.x -= Blockly.FieldDropdown.CHECKMARK_OVERHANG;
  if (xy.x > windowSize.width + scrollOffset.x - paddingContainerSize.width) {
    xy.x = windowSize.width + scrollOffset.x - paddingContainerSize.width;
  }
}
``` -/
def gridPickerXY (p : GridPlaceIn) : ℚ × ℚ :=
  let y : ℚ :=
    if p.xyY + p.contH + p.bbH ≥ p.winH + p.scrY then
      p.xyY - (p.contH + 2)
    else
      p.xyY + p.bbH
  let x : ℚ :=
    if p.rtl then
      let x1 := p.xyX + p.bbW + p.checkmarkOverhang
      if x1 < p.scrX + p.contW then p.scrX + p.contW else x1
    else
      let x1 := p.xyX - p.checkmarkOverhang
      if x1 > p.winW + p.scrX - p.contW then p.winW + p.scrX - p.contW else x1
  (x, y)

/-! ### Note picker placement

Embeds the `topPosition` / `leftPosition` computation of
`FieldNote.prototype.showEditor_` in the web (non-mobile) branch
(source lines 575-598).  The offsets are relative to the widget div
that the superclass editor opened; `pianoH` is the measured overlay
height `this.keyHeight_ + div.scrollHeight + 5`.
-/

/-- Inputs of the note-picker placement: anchor position `xy`
(`getAbsoluteXY_`), anchor box (`getScaledBBox_`), piano size, viewport
size, scroll offset and the RTL flag. -/
structure NotePlaceIn where
  xyX : ℚ
  xyY : ℚ
  bbW : ℚ
  bbH : ℚ
  pianoW : ℚ
  pianoH : ℚ
  winW : ℚ
  winH : ℚ
  scrX : ℚ
  scrY : ℚ
  rtl : Bool
  deriving DecidableEq

/-- The `(leftPosition, topPosition)` pair computed by
`FieldNote.prototype.showEditor_` for the web view:

```js
var topPosition = 0, leftPosition = 0;
if (!mobile) {
  if (xy.y + pianoHeight + borderBBox.height >=
      windowSize.height + scrollOffset.y) {
    topPosition = -(pianoHeight + borderBBox.height);
  }
  if (this.sourceBlock_.RTL) {
    xy.x += borderBBox.width;
    xy.x -= this.pianoWidth_;
    leftPosition += borderBBox.width;
    leftPosition -= this.pianoWidth_;
    if (xy.x < scrollOffset.x) {
      leftPosition = scrollOffset.x - xy.x;
    }
  } else {
    if (xy.x > windowSize.width + scrollOffset.x - this.pianoWidth_) {
      leftPosition -= xy.x - (windowSize.width + scrollOffset.x - this.pianoWidth_) + 30;
    }
  }
}
``` -/
def notePickerWebOffsets (p : NotePlaceIn) : ℚ × ℚ :=
  let topPosition : ℚ :=
    if p.xyY + p.pianoH + p.bbH ≥ p.winH + p.scrY then -(p.pianoH + p.bbH) else 0
  let leftPosition : ℚ :=
    if p.rtl then
      let xm := p.xyX + p.bbW - p.pianoW
      let l := (0 : ℚ) + p.bbW - p.pianoW
      if xm < p.scrX then p.scrX - xm else l
    else
      if p.xyX > p.winW + p.scrX - p.pianoW then
        (0 : ℚ) - (p.xyX - (p.winW + p.scrX - p.pianoW) + 30)
      else 0
  (leftPosition, topPosition)

/-! ### Note table generation (`FieldNote.prototype.createNotesArray_`) -/

/-- `FieldNote.prototype.nextNote_`: successor of a note name. -/
def nextNote : String → String
  | "A#" => "B"
  | "B" => "C"
  | "C#" => "D"
  | "D#" => "E"
  | "E" => "F"
  | "F#" => "G"
  | "G#" => "A"
  | s => s ++ "#"

/-- `FieldNote.prototype.nextNotePrefix_`: successor of an octave
qualifier.  The JS switch has no default, so unmatched inputs (including
the empty qualifier of the small piano and an `undefined` qualifier)
yield `undefined`, modelled as `none`. -/
def nextNotePfx (nKeys : Nat) : Option String → Option String
  | some "Deep" => some "Low"
  | some "Low" => some "Middle"
  | some "Middle" => if nKeys == 36 then some "High" else some "Tenor"
  | some "Tenor" => some "High"
  | _ => none

/-- JS string conversion of a possibly-`undefined` qualifier, as used by
`prefix + ' ' + curNote`. -/
def jsOptStr : Option String → String
  | some s => s
  | none => "undefined"

/-- The loop body of `createNotesArray_`: one `(name, keyNumber)` pair is
pushed per iteration (`noteName_.push(prefix + ' ' + curNote)` and
`noteFreq_.push(Math.pow(2, (keyNumber - 49) / 12) * 440)`); then
`curNote = nextNote_(curNote)`, the qualifier advances when `(i+1) % 12 == 0`,
and `keyNumber++`.  The frequency stored by the source is recovered from
the recorded `keyNumber` by `freqOfKey` below. -/
def notesLoop (nKeys : Nat) : Nat → Nat → String → Option String → Int → List (String × Int)
  | 0, _, _, _, _ => []
  | cnt + 1, i, curNote, pfx, keyNumber =>
    (jsOptStr pfx ++ " " ++ curNote, keyNumber) ::
      notesLoop nKeys cnt (i + 1) (nextNote curNote)
        (if (i + 1) % 12 == 0 then nextNotePfx nKeys pfx else pfx)
        (keyNumber + 1)

/-- The `switch (this.nKeys_)` of `createNotesArray_`: start key number
and octave qualifier per piano size (12 = small, 36 = medium,
60 = large).  Other sizes leave both variables `undefined` in the
source; `setNumberOfKeys` rejects them, so they are unreachable. -/
def pianoStart : Nat → Option (Int × String)
  | 12 => some (40, "")
  | 36 => some (28, "Low")
  | 60 => some (16, "Deep")
  | _ => none

/-- `FieldNote.prototype.createNotesArray_` as a list of
`(name, keyNumber)` pairs, starting from `curNote = 'C'`. -/
def createNotesArray (nKeys : Nat) : List (String × Int) :=
  match pianoStart nKeys with
  | none => []
  | some (k0, p0) => notesLoop nKeys nKeys 0 "C" (some p0) k0

/-- The equal-tempered piano frequency formula used by the source:
`Math.pow(2, (keyNumber - 49) / 12) * 440`. -/
noncomputable def freqOfKey (k : Int) : ℝ :=
  440 * (2 : ℝ) ^ (((k : ℝ) - 49) / 12)

/-- The `noteName_` array. -/
def noteNames (nKeys : Nat) : List String :=
  (createNotesArray nKeys).map Prod.fst

/-- The `noteFreq_` array. -/
noncomputable def noteFreq (nKeys : Nat) : List ℝ :=
  (createNotesArray nKeys).map (fun p => freqOfKey p.2)

/-! ### Display text (`FieldNote.prototype.getNoteName_` / `getText`) -/

/-- Decimal digit string of `m` left-padded with zeros to `len` digits. -/
def digitsPad (m len : Nat) : String :=
  let s := toString m
  String.mk (List.replicate (len - s.length) '0') ++ s

/-- JS number-to-string conversion for values with a finite decimal
expansion (the only values the development evaluates it on): the
shortest decimal representation, with no trailing zeros and no unit.
Models `String(number)` as applied to the stored `note_`; `e` is the
least exponent with `q * 10^e` integral, and `n` its value, computed on
`q.num` / `q.den` directly. -/
def jsNumToString (q : ℚ) : String :=
  match (List.range 21).find? (fun e => ((10 : Int) ^ e * q.num) % (q.den : Int) == 0) with
  | none => toString q
  | some e =>
    let n : Int := ((10 : Int) ^ e * q.num) / (q.den : Int)
    let sign := if n < 0 then "-" else ""
    let a := n.natAbs
    if e == 0 then sign ++ toString a
    else sign ++ (digitsPad a (e + 1)).dropRight e ++ "." ++ (digitsPad a (e + 1)).takeRight e

/-- JS `Number(x).toFixed(2)` for the nonnegative decimal values the
development evaluates it on: exactly two fraction digits; `n` is
`⌊q * 100 + 1/2⌋` computed on `q.num` / `q.den` directly. -/
def toFixed2 (q : ℚ) : String :=
  let n : Int := Int.fdiv (200 * q.num + (q.den : Int)) (2 * (q.den : Int))
  let sign := if n < 0 then "-" else ""
  let a := n.natAbs
  sign ++ toString (a / 100) ++ "." ++ digitsPad (a % 100) 2

/-- The scan of `getNoteName_`:

```js
for (var i = 0; i < this.nKeys_; i++) {
  if (Math.abs(this.noteFreq_[i] - Number(note)) < this.eps_)
    return this.noteName_[i];
}
```

over the parallel `noteName_` / `noteFreq_` arrays, zipped into pairs;
`eps` is `this.eps_` (set to 1 in the constructor and never changed). -/
noncomputable def scanNotes (eps : ℝ) : List (String × ℝ) → ℝ → Option String
  | [], _ => none
  | e :: rest, v =>
    haveI := Classical.propDecidable (|e.2 - v| < eps)
    if |e.2 - v| < eps then some e.1 else scanNotes eps rest v

/-- `FieldNote.prototype.getNoteName_`: the note name of the first table
entry within `eps` of the value, else the raw value string suffixed
with `' Hz'` (the stored `note_` is always numeric, so the `isNaN`
guard before appending the suffix never fires). -/
noncomputable def getNoteName (eps : ℝ) (names : List String) (freqs : List ℝ)
    (v : ℝ) (raw : String) : String :=
  match scanNotes eps (names.zip freqs) v with
  | some nm => nm
  | none => raw ++ " Hz"

/-- The text shown in the field for stored value `q` with an `nKeys`
table: `setValue` ends with `this.setText(this.getNoteName_())`, and
`setText` keeps a non-numeric string such as `'262 Hz'` or a note name
unchanged. -/
noncomputable def fieldNoteDisplay (nKeys : Nat) (q : ℚ) : String :=
  getNoteName 1 (noteNames nKeys) (noteFreq nKeys) (q : ℝ) (jsNumToString q)

/-- `FieldNote.prototype.getText`: `Number(this.note_).toFixed(2)`,
used when the block is collapsed; no unit suffix. -/
def fieldNoteGetText (q : ℚ) : String :=
  toFixed2 q

/-! ### Value holder (`FieldNote.prototype.setValue` / `classValidator`)

The stored `note_` is `String(parseFloat(candidate || '0'))`, a
canonical numeric string; it is modelled by its numeric value.  A
candidate is modelled by its `parseFloat` result: `none` when the parse
yields `NaN`, `some v` otherwise (`candidate || '0'` means an empty
candidate parses as `0`, never `NaN`).
-/

/-- State of the note field relevant to `setValue`: the stored value and
the two guards of the event firing condition
(`this.sourceBlock_ && Blockly.Events.isEnabled()`). -/
structure FieldNoteVal where
  note : ℚ
  hasSourceBlock : Bool
  eventsEnabled : Bool
  deriving DecidableEq

/-- A `Blockly.Events.Change` field event carrying the old and new value. -/
structure FieldChange where
  oldValue : ℚ
  newValue : ℚ
  deriving DecidableEq

/-- `FieldNote.prototype.setValue`:

```js
note = String(parseFloat(note || '0'));
if (isNaN(Number(note)) || Number(note) < 0)
  return;
if (this.sourceBlock_ && Blockly.Events.isEnabled() && this.note_ != note) {
  Blockly.Events.fire(new Blockly.Events.Change(..., String(this.note_), String(note)));
}
this.note_ = note;
```

Returns the new state and the fired event, if any. -/
def fieldNoteSetValue (st : FieldNoteVal) (cand : Option ℚ) : FieldNoteVal × Option FieldChange :=
  match cand with
  | none => (st, none)
  | some v =>
    if v < 0 then (st, none)
    else
      let fired : Option FieldChange :=
        if st.hasSourceBlock && st.eventsEnabled && !(st.note == v) then
          some { oldValue := st.note, newValue := v }
        else none
      ({ st with note := v }, fired)

/-- `FieldNote.prototype.classValidator`.  The argument models the JS
input: `none` is a `null` text, `some none` a text whose `parseFloat`
is `NaN`, `some (some n)` a text parsing to `n`.

```js
if (text === null) { return null; }
text = String(text);
var n = parseFloat(text || '0');
if (isNaN(n) || n < 0) { return null; }
return String(n);
``` -/
def classValidator (text : Option (Option ℚ)) : Option ℚ :=
  match text with
  | none => none
  | some none => none
  | some (some n) => if n < 0 then none else some n

/-! ### Note picker pagination (`FieldNote.prototype.showEditor_`) -/

/-- Pagination state built by `showEditor_` when `pagination` is true:
`currentPage_1`, the per-key visibility (`goog.ui.ColorButton.setVisible`)
and the text of the note label. -/
structure PianoPage where
  currentPage : Nat
  visible : Nat → Bool
  label : String

/-- The page label text `'Octave #' + (currentPage + 1)`. -/
def octaveLabel (p : Nat) : String :=
  "Octave #" ++ toString (p + 1)

/-- One `for (var i = 0; i < 12; i++) piano[i + first].setVisible(b)` loop. -/
def setVisibleRange (vis : Nat → Bool) (first : Nat) (b : Bool) : Nat → Bool :=
  fun k => if first ≤ k ∧ k < first + 12 then b else vis k

/-- `var Npages_1 = this.nKeys_ / 12;` (exact for the valid key counts). -/
def pianoNpages (nKeys : Nat) : Nat :=
  nKeys / 12

/-- State after the render loop of `showEditor_` with pagination on:
`currentPage_1 = 0`, keys with index `> 11` hidden
(`if (pagination && i > 11) key.setVisible(false)`), label `'Octave #1'`. -/
def initPiano : PianoPage :=
  { currentPage := 0
    visible := fun k => decide (k < 12)
    label := octaveLabel 0 }

/-- A press on the previous or next pagination button. -/
inductive PageOp where
  | next
  | prev
  deriving DecidableEq

/-- The two MOUSEDOWN listeners registered on the pagination buttons.

```js
// previous
if (currentPage_1 == 0) { scriptLabel.innerText = 'Octave #' + (currentPage_1 + 1); return; }
var curFirstKey = currentPage_1 * 12;
var newFirstKey = currentPage_1 * 12 - 12;
for (var i = 0; i < 12; i++) piano[i + curFirstKey].setVisible(false);
for (var i = 0; i < 12; i++) piano[i + newFirstKey].setVisible(true);
currentPage_1--;
scriptLabel.innerText = 'Octave #' + (currentPage_1 + 1);
// next
if (currentPage_1 == Npages_1 - 1) { scriptLabel.innerText = 'Octave #' + (currentPage_1 + 1); return; }
var curFirstKey = currentPage_1 * 12;
var newFirstKey = currentPage_1 * 12 + 12;
for (var i = 0; i < 12; i++) piano[i + curFirstKey].setVisible(false);
for (var i = 0; i < 12; i++) piano[i + newFirstKey].setVisible(true);
currentPage_1++;
scriptLabel.innerText = 'Octave #' + (currentPage_1 + 1);
``` -/
def pageStep (nKeys : Nat) (op : PageOp) (s : PianoPage) : PianoPage :=
  match op with
  | PageOp.prev =>
    if s.currentPage == 0 then { s with label := octaveLabel s.currentPage }
    else
      { currentPage := s.currentPage - 1
        visible := setVisibleRange (setVisibleRange s.visible (s.currentPage * 12) false)
          (s.currentPage * 12 - 12) true
        label := octaveLabel (s.currentPage - 1) }
  | PageOp.next =>
    if s.currentPage == pianoNpages nKeys - 1 then { s with label := octaveLabel s.currentPage }
    else
      { currentPage := s.currentPage + 1
        visible := setVisibleRange (setVisibleRange s.visible (s.currentPage * 12) false)
          (s.currentPage * 12 + 12) true
        label := octaveLabel (s.currentPage + 1) }

/-- A sequence of pagination button presses. -/
def runPiano (nKeys : Nat) (ops : List PageOp) (s : PianoPage) : PianoPage :=
  ops.foldl (fun st op => pageStep nKeys op st) s

/-! ### Key activation and the stop-after-idle timer

Embeds the audio-relevant effects of the MOUSEDOWN listener of a piano
key together with `AudioContextManager` (assuming audio is available
and not muted):

```js
goog.events.listen(key.getElement(), goog.events.EventType.MOUSEDOWN, function () {
  AudioContextManager.stop();
  var cnt = ++thisField.soundingKeys_;
  var freq = this.getContent().getAttribute("tag");
  ...
  AudioContextManager.tone(freq, 1);
  ...
  setTimeout(function () {
    if (thisField.soundingKeys_ == cnt)
      AudioContextManager.stop();
  }, 500);
}, false, key);
```

`tone` sets `_frequency` only when the frequency is positive;
`stop` resets `_frequency` to 0.
-/

/-- The observable audio state: the activation counter
`thisField.soundingKeys_` and `AudioContextManager._frequency`
(0 when stopped). -/
structure AudioState where
  soundingKeys : Nat
  frequency : ℚ
  deriving DecidableEq

/-- Events acting on the audio state: a key press (carrying the key's
frequency) and the firing of a scheduled stop timer (carrying the
counter value `cnt` captured at schedule time). -/
inductive NoteEvt where
  | press : ℚ → NoteEvt
  | timerFire : Nat → NoteEvt
  deriving DecidableEq

/-- One event: a press runs `stop(); cnt = ++soundingKeys_; tone(freq, 1)`
and schedules `timerFire cnt`; a firing timer stops the audio only when
`soundingKeys_ == cnt`. -/
def noteStep : AudioState → NoteEvt → AudioState
  | s, NoteEvt.press f =>
    { soundingKeys := s.soundingKeys + 1
      frequency := if 0 < f then f else 0 }
  | s, NoteEvt.timerFire cnt =>
    if s.soundingKeys = cnt then { s with frequency := 0 } else s

/-- A sequence of audio events. -/
def noteRun (s : AudioState) (evs : List NoteEvt) : AudioState :=
  evs.foldl noteStep s

/-! ### Flyout button callback wiring (`Blockly.FlyoutButton`)

`targetWorkspace.getButtonCallback` is the host registry (outside the
sampled sources), modelled as a function from keys to optionally
registered callbacks of an abstract type; looking up an absent
`callbackkey` attribute (`null`) finds nothing.
-/

/-- JS truthiness of the `xml.getAttribute('callbackkey')` result:
`null` (attribute absent) and the empty string are falsy. -/
def jsTruthy : Option String → Bool
  | none => false
  | some s => !(s == "")

/-- `targetWorkspace.getButtonCallback(callbackKey)` for a possibly-null
key over the host registry `reg`. -/
def getButtonCallback {α : Type} (reg : String → Option α) : Option String → Option α
  | some k => reg k
  | none => none

/-- The observable result of the `Blockly.FlyoutButton` constructor:
whether it is a label, the stored `callback_`, and whether a
configuration warning was logged. -/
structure FlyoutButtonState (α : Type) where
  isLabel : Bool
  callback : Option α
  warned : Bool

/-- The callback wiring in the `Blockly.FlyoutButton` constructor
(source lines 83-91):

```js
var callbackKey = xml.getAttribute('callbackkey');
if (this.isLabel_ && callbackKey) {
  console.warn('Labels should not have callbacks. ...');
} else if (!this.isLabel_ &&
    !(callbackKey && targetWorkspace.getButtonCallback(callbackKey))) {
  console.warn('Buttons should have callbacks. ...');
} else {
  this.callback_ = targetWorkspace.getButtonCallback(callbackKey);
}
```

`this.callback_` starts as `null`; no branch throws. -/
def mkFlyoutButton {α : Type} (isLabel : Bool) (callbackKey : Option String)
    (reg : String → Option α) : FlyoutButtonState α :=
  if isLabel && jsTruthy callbackKey then
    { isLabel := isLabel, callback := none, warned := true }
  else if !isLabel && !(jsTruthy callbackKey && (getButtonCallback reg callbackKey).isSome) then
    { isLabel := isLabel, callback := none, warned := true }
  else
    { isLabel := isLabel, callback := getButtonCallback reg callbackKey, warned := false }

/-- `Blockly.FlyoutButton.prototype.onMouseUp_`: after cancelling any
gesture, `if (this.callback_) this.callback_(this);` — returns the
callback that gets invoked, if any. -/
def flyoutButtonMouseUp {α : Type} (b : FlyoutButtonState α) : Option α :=
  b.callback

/-! ### Grid picker tooltips: configuration and disposal -/

/-- The fields of `params` read when building `tooltipCfg` in the
`FieldGridPicker` constructor.  `tooltips` is the raw attribute string
(`none` when absent); the offsets are modelled by their `parseInt`
results (`none` for `NaN`). -/
structure GridPickerParams where
  tooltips : Option String
  tooltipsXOffset : Option Int
  tooltipsYOffset : Option Int
  deriving DecidableEq

/-- JS `v || d` for a `parseInt` result: `NaN` and `0` are falsy. -/
def jsOrInt (v : Option Int) (d : Int) : Int :=
  match v with
  | some n => if n = 0 then d else n
  | none => d

/-- The tooltip configuration object. -/
structure TooltipConfig where
  enabled : Bool
  xOffset : Int
  yOffset : Int
  deriving DecidableEq

/-- `tooltipCfg` as built by the `FieldGridPicker` constructor:

```js
var tooltipCfg = {
  enabled: params.tooltips == 'true' || true,
  xOffset: parseInt(params.tooltipsXOffset) || 15,
  yOffset: parseInt(params.tooltipsYOffset) || -10
};
``` -/
def mkTooltipConfig (p : GridPickerParams) : TooltipConfig :=
  { enabled := (p.tooltips == some "true") || true
    xOffset := jsOrInt p.tooltipsXOffset 15
    yOffset := jsOrInt p.tooltipsYOffset (-10) }

/-- The tooltips pushed onto `this.tooltips_` by the menu-item loop of
`FieldGridPicker.prototype.showEditor_`: one per menu item when
`this.tooltipConfig_.enabled`, none otherwise.  Each item is
represented by its index in `menuItemsDom`. -/
def tooltipsCreated (cfg : TooltipConfig) (numItems : Nat) : List Nat :=
  if cfg.enabled then List.range numItems else []

/-- The per-instance resources of a grid picker relevant to disposal:
the live tooltip list `this.tooltips_` (tooltip ids), the ids on which
`goog.ui.Tooltip.dispose` has been called (in order), and whether
`Blockly.FieldDropdown.prototype.dispose` has run. -/
structure GridPickerRes where
  tooltips : List Nat
  disposedTooltips : List Nat
  superDisposed : Bool
  deriving DecidableEq

/-- `FieldGridPicker.prototype.disposeTooltips`:

```js
if (this.tooltips_ && this.tooltips_.length) {
  this.tooltips_.forEach(function (t) { return t.dispose(); });
  this.tooltips_ = [];
}
```

(an empty array is truthy, but its length 0 is falsy). -/
def disposeTooltips (s : GridPickerRes) : GridPickerRes :=
  if s.tooltips.length ≠ 0 then
    { s with tooltips := [], disposedTooltips := s.disposedTooltips ++ s.tooltips }
  else s

/-- `FieldGridPicker.prototype.dispose`: the superclass dispose followed
by `this.disposeTooltips()`. -/
def gridPickerDispose (s : GridPickerRes) : GridPickerRes :=
  disposeTooltips { s with superDisposed := true }

/-! ### Concrete placement inputs used by the counterexamples -/

/-- A grid-picker open in a left-to-right workspace on a short viewport:
anchor at `(0, 100)` of size `50 × 20`, overlay `80 × 200`, viewport
`1000 × 150`, no scroll. -/
def gridFlipInput : GridPlaceIn :=
  { xyX := 0, xyY := 100, bbW := 50, bbH := 20, contW := 80, contH := 200
    winW := 1000, winH := 150, scrX := 0, scrY := 0
    checkmarkOverhang := 0, rtl := false }

/-- A note-picker open in a left-to-right workspace near the right edge:
anchor at `(900, 0)` of size `40 × 20`, piano `154 × 100` (seven default
22px keys), viewport `800 × 1000`, no scroll. -/
def noteClampInput : NotePlaceIn :=
  { xyX := 900, xyY := 0, bbW := 40, bbH := 20, pianoW := 154, pianoH := 100
    winW := 800, winH := 1000, scrX := 0, scrY := 0, rtl := false }

/-! ## Claim theorems -/

/-- C1 (counterexample): at `gridFlipInput` the flip condition of the
claim holds (the overlay does not fit below), and the grid picker's
flipped `y` is `A.y - S.height - 2`, not the claimed `A.y - S.height`. -/
theorem c1_counterexample :
    ¬ (gridFlipInput.xyY + gridFlipInput.bbH + gridFlipInput.contH <
        gridFlipInput.winH + gridFlipInput.scrY)
    ∧ (gridPickerXY gridFlipInput).2 = gridFlipInput.xyY - gridFlipInput.contH - 2
    ∧ (gridPickerXY gridFlipInput).2 ≠ gridFlipInput.xyY - gridFlipInput.contH := by
  refine ⟨by norm_num [gridFlipInput], ?_, ?_⟩ <;>
    norm_num [gridPickerXY, gridFlipInput]

/-- C1 (amended): when `A.y + A.height + S.height < viewport.height + scrollY`
both pickers open below the anchor (grid: `y = A.y + A.height`; note
picker: vertical offset 0 from its default position); otherwise a single
flip is applied: the grid picker flips to `y = A.y - S.height - 2` and
the note picker to offset `-(S.height + A.height)`, i.e. `A.y - S.height`
relative to the below-anchor base. -/
theorem c1_flip_rule (g : GridPlaceIn) (n : NotePlaceIn) :
    (gridPickerXY g).2 =
      (if g.xyY + g.bbH + g.contH < g.winH + g.scrY then g.xyY + g.bbH
       else g.xyY - g.contH - 2)
    ∧ (notePickerWebOffsets n).2 =
      (if n.xyY + n.pianoH + n.bbH < n.winH + n.scrY then 0
       else -(n.pianoH + n.bbH)) := by
  constructor
  · simp only [gridPickerXY]
    split_ifs <;> first | ring1 | linarith
  · simp only [notePickerWebOffsets]
    split_ifs <;> first | ring1 | linarith

/-- C7 (counterexample): at `noteClampInput` the note picker's overlay
overflows the right viewport edge, and the horizontal shift applied is
the overflow plus 30 extra pixels, not "exactly the overflow amount" as
claimed. -/
theorem c7_counterexample :
    noteClampInput.xyX + noteClampInput.pianoW > noteClampInput.winW + noteClampInput.scrX
    ∧ (notePickerWebOffsets noteClampInput).1 = -284
    ∧ (notePickerWebOffsets noteClampInput).1 ≠
        -(noteClampInput.xyX + noteClampInput.pianoW -
          (noteClampInput.winW + noteClampInput.scrX)) := by
  refine ⟨by norm_num [noteClampInput], ?_, ?_⟩ <;>
    norm_num [notePickerWebOffsets, noteClampInput]

/-- C7 (amended): single-pass horizontal clamping, with per-picker
formulas.  Left-to-right: the grid picker shifts left by exactly the
overflow `x + width - (viewport.width + scrollX)`, while the note picker
shifts left by the overflow plus 30 extra pixels.  Right-to-left: the
grid picker clamps its (right-edge) `x` so that the mirrored left edge
`x - width` never falls left of `scrollX`, while the note picker
replaces its mirror offset with `scrollX - mirroredX`.  Each branch
applies its adjustment exactly once, independently of the vertical flip. -/
theorem c7_horizontal_clamp (g : GridPlaceIn) (n : NotePlaceIn) :
    (g.rtl = false →
      (gridPickerXY g).1 =
        (if g.xyX - g.checkmarkOverhang + g.contW > g.winW + g.scrX
         then g.xyX - g.checkmarkOverhang -
            (g.xyX - g.checkmarkOverhang + g.contW - (g.winW + g.scrX))
         else g.xyX - g.checkmarkOverhang))
    ∧ (g.rtl = true →
      (gridPickerXY g).1 =
        (if g.xyX + g.bbW + g.checkmarkOverhang - g.contW < g.scrX
         then g.scrX + g.contW
         else g.xyX + g.bbW + g.checkmarkOverhang))
    ∧ (n.rtl = false →
      (notePickerWebOffsets n).1 =
        (if n.xyX + n.pianoW > n.winW + n.scrX
         then -(n.xyX + n.pianoW - (n.winW + n.scrX)) - 30
         else 0))
    ∧ (n.rtl = true →
      (notePickerWebOffsets n).1 =
        (if n.xyX + n.bbW - n.pianoW < n.scrX
         then n.scrX - (n.xyX + n.bbW - n.pianoW)
         else n.bbW - n.pianoW)) := by
  refine ⟨fun h => ?_, fun h => ?_, fun h => ?_, fun h => ?_⟩ <;>
    simp only [gridPickerXY, notePickerWebOffsets, h] <;>
    split_ifs <;> first | ring1 | linarith | simp_all

/-- C5: the note field's `setValue` silently rejects candidates whose
parse is `NaN` or negative (state unchanged, no event); a change event
is emitted only when the newly accepted value differs from the prior
stored value, and carries the old and new values; `classValidator`
likewise returns `null` for `null`, `NaN` or negative input. -/
theorem c5_set_value (st : FieldNoteVal) (v : ℚ) :
    fieldNoteSetValue st none = (st, none)
    ∧ (v < 0 → fieldNoteSetValue st (some v) = (st, none))
    ∧ (∀ e, (fieldNoteSetValue st (some v)).2 = some e →
        st.note ≠ v ∧ e.oldValue = st.note ∧ e.newValue = v
          ∧ (fieldNoteSetValue st (some v)).1.note = v)
    ∧ classValidator none = none
    ∧ classValidator (some none) = none
    ∧ (v < 0 → classValidator (some (some v)) = none) := by
  refine ⟨rfl, fun h => ?_, fun e he => ?_, rfl, rfl, fun h => ?_⟩
  · simp [fieldNoteSetValue, h]
  · by_cases hneg : v < 0
    · simp [fieldNoteSetValue, hneg] at he
    · by_cases hfire : st.hasSourceBlock && st.eventsEnabled && !(st.note == v)
      · have hne : st.note ≠ v := by
          rcases Bool.and_eq_true_iff.mp hfire with ⟨-, h2⟩
          simpa using h2
        simp only [fieldNoteSetValue, if_neg hneg, hfire, if_true, Option.some.injEq] at he
        refine ⟨hne, ?_, ?_, ?_⟩
        · rw [← he]
        · rw [← he]
        · simp [fieldNoteSetValue, hneg]
      · simp [fieldNoteSetValue, hneg, hfire] at he
  · simp [classValidator, h]

/-- C5 witness: a negative candidate is rejected with no event. -/
theorem c5_set_value_witness :
    fieldNoteSetValue { note := 0, hasSourceBlock := true, eventsEnabled := true }
      (some (-1)) = ({ note := 0, hasSourceBlock := true, eventsEnabled := true }, none) :=
  (c5_set_value { note := 0, hasSourceBlock := true, eventsEnabled := true } (-1)).2.1
    (by norm_num)

/-- C8: a label with a (truthy) callback key warns and stores no
callback, so activation invokes none; a button whose key is falsy or
not registered warns and stores no callback, so activation is a no-op;
both paths are total (no exception). -/
theorem c8_flyout_callbacks {α : Type} (reg : String → Option α) (key : Option String) :
    (jsTruthy key = true →
      mkFlyoutButton true key reg =
          { isLabel := true, callback := none, warned := true }
        ∧ flyoutButtonMouseUp (mkFlyoutButton true key reg) = none)
    ∧ ((jsTruthy key && (getButtonCallback reg key).isSome) = false →
      mkFlyoutButton false key reg =
          { isLabel := false, callback := none, warned := true }
        ∧ flyoutButtonMouseUp (mkFlyoutButton false key reg) = none) := by
  constructor
  · intro h
    have : mkFlyoutButton true key reg = { isLabel := true, callback := none, warned := true } := by
      simp [mkFlyoutButton, h]
    exact ⟨this, by simp [flyoutButtonMouseUp, this]⟩
  · intro h
    have : mkFlyoutButton false key reg = { isLabel := false, callback := none, warned := true } := by
      simp [mkFlyoutButton, h]
    exact ⟨this, by simp [flyoutButtonMouseUp, this]⟩

/-- C8 witness: a label configured with callback key `'done'` and a
button whose key `'missing'` is unregistered both end with no callback
invoked on activation. -/
theorem c8_flyout_callbacks_witness :
    flyoutButtonMouseUp (mkFlyoutButton true (some "done") (fun _ => (none : Option Nat))) = none
    ∧ flyoutButtonMouseUp
        (mkFlyoutButton false (some "missing") (fun _ => (none : Option Nat))) = none :=
  ⟨((c8_flyout_callbacks (fun _ => (none : Option Nat)) (some "done")).1 (by decide)).2,
   ((c8_flyout_callbacks (fun _ => (none : Option Nat)) (some "missing")).2 (by decide)).2⟩

/-- C9: disposing the grid picker twice yields the same observable state
as disposing once; the first dispose empties the tooltip list, and
`disposeTooltips` on an already-empty list changes nothing (its guard
skips the per-tooltip disposal, so no tooltip is disposed twice). -/
theorem c9_dispose_idempotent (s : GridPickerRes) :
    gridPickerDispose (gridPickerDispose s) = gridPickerDispose s
    ∧ (gridPickerDispose s).tooltips = []
    ∧ disposeTooltips { s with tooltips := [] } = { s with tooltips := [] } := by
  refine ⟨?_, ?_, by simp [disposeTooltips]⟩
  · by_cases h : s.tooltips.length = 0 <;>
      simp [gridPickerDispose, disposeTooltips, h]
  · by_cases h : s.tooltips.length = 0 <;>
      simp [gridPickerDispose, disposeTooltips, h]
    exact List.length_eq_zero.mp h

/-- C10: the grid picker's tooltip-enabled flag is
`params.tooltips == 'true' || true`, which is `true` for every
configuration, so one tooltip is created per menu item no matter what
value (including `'false'` or omission) the `tooltips` key has. -/
theorem c10_tooltips_always_enabled (p : GridPickerParams) (numItems : Nat) :
    (mkTooltipConfig p).enabled = true
    ∧ tooltipsCreated (mkTooltipConfig p) numItems = List.range numItems
    ∧ (tooltipsCreated (mkTooltipConfig p) numItems).length = numItems := by
  refine ⟨by simp [mkTooltipConfig], ?_, ?_⟩ <;>
    simp [tooltipsCreated, mkTooltipConfig]

/-- The current page after one next-press: stays at the last page,
otherwise advances. -/
theorem pageStep_next_currentPage (nKeys : Nat) (s : PianoPage) :
    (pageStep nKeys PageOp.next s).currentPage =
      if s.currentPage = pianoNpages nKeys - 1 then s.currentPage else s.currentPage + 1 := by
  simp only [pageStep]
  split_ifs with h1 h2 <;> simp_all

/-- The current page after one prev-press: stays at page 0, otherwise
goes back. -/
theorem pageStep_prev_currentPage (nKeys : Nat) (s : PianoPage) :
    (pageStep nKeys PageOp.prev s).currentPage =
      if s.currentPage = 0 then s.currentPage else s.currentPage - 1 := by
  simp only [pageStep]
  split_ifs with h1 h2 <;> simp_all

/-- Every pagination-button press preserves `currentPage < totalPages`. -/
theorem pageStep_invariant (nKeys : Nat) (op : PageOp) (s : PianoPage)
    (h : s.currentPage < pianoNpages nKeys) :
    (pageStep nKeys op s).currentPage < pianoNpages nKeys := by
  cases op
  · rw [pageStep_next_currentPage]
    split_ifs with h1 <;> omega
  · rw [pageStep_prev_currentPage]
    split_ifs with h1 <;> omega

/-- Any press sequence preserves `currentPage < totalPages`. -/
theorem runPiano_invariant (nKeys : Nat) (ops : List PageOp) (s : PianoPage)
    (h : s.currentPage < pianoNpages nKeys) :
    (runPiano nKeys ops s).currentPage < pianoNpages nKeys := by
  induction ops generalizing s with
  | nil => exact h
  | cons op rest ih => exact ih (pageStep nKeys op s) (pageStep_invariant nKeys op s h)

/-- Iterating the next-press `k` times from a valid page saturates at
the last page. -/
theorem iterate_next_currentPage (nKeys k : Nat) (s : PianoPage)
    (h : s.currentPage < pianoNpages nKeys) :
    ((pageStep nKeys PageOp.next)^[k] s).currentPage =
      min (s.currentPage + k) (pianoNpages nKeys - 1) := by
  induction k generalizing s with
  | zero => simp; omega
  | succ k ih =>
    rw [Function.iterate_succ_apply]
    rw [ih (pageStep nKeys PageOp.next s) (pageStep_invariant nKeys PageOp.next s h)]
    rw [pageStep_next_currentPage]
    split_ifs with h1 <;> omega

/-- C3: with pagination enabled on an `nKeys`-key piano
(`nKeys` in 12/36/60), `totalPages = nKeys / 12`, `currentPage` stays in
`[0, totalPages)` after every press sequence from the initial state;
a prev-press at page 0 and a next-press at the last page leave the page
and the key visibility unchanged while still writing the page label;
pressing next `totalPages` times from page 0 lands on the last page,
never past it. -/
theorem c3_pagination (nKeys : Nat) (hn : nKeys = 12 ∨ nKeys = 36 ∨ nKeys = 60)
    (ops : List PageOp) (s : PianoPage) :
    pianoNpages nKeys = nKeys / 12
    ∧ (runPiano nKeys ops initPiano).currentPage < pianoNpages nKeys
    ∧ (s.currentPage = pianoNpages nKeys - 1 →
        pageStep nKeys PageOp.next s = { s with label := octaveLabel s.currentPage })
    ∧ (s.currentPage = 0 →
        pageStep nKeys PageOp.prev s = { s with label := octaveLabel s.currentPage })
    ∧ ((pageStep nKeys PageOp.next)^[pianoNpages nKeys] initPiano).currentPage =
        pianoNpages nKeys - 1 := by
  have hN : 1 ≤ pianoNpages nKeys := by
    rcases hn with h | h | h <;> subst h <;> decide
  have h0 : initPiano.currentPage < pianoNpages nKeys := hN
  refine ⟨rfl, runPiano_invariant nKeys ops initPiano h0, fun h => ?_, fun h => ?_, ?_⟩
  · simp [pageStep, h]
  · simp [pageStep, h]
  · rw [iterate_next_currentPage nKeys (pianoNpages nKeys) initPiano h0]
    simp only [initPiano]
    omega

/-- C3 witness: for the 36-key piano, a concrete press sequence stays in
range and a prev-press at page 0 only rewrites the label. -/
theorem c3_pagination_witness :
    (runPiano 36 [PageOp.next, PageOp.next, PageOp.prev] initPiano).currentPage <
        pianoNpages 36
    ∧ pageStep 36 PageOp.prev initPiano =
        { initPiano with label := octaveLabel initPiano.currentPage } :=
  ⟨(c3_pagination 36 (by decide) [PageOp.next, PageOp.next, PageOp.prev] initPiano).2.1,
   (c3_pagination 36 (by decide) [] initPiano).2.2.2.1 rfl⟩

/-- One audio event never decreases the activation counter. -/
theorem noteStep_counter_le (s : AudioState) (e : NoteEvt) :
    s.soundingKeys ≤ (noteStep s e).soundingKeys := by
  cases e with
  | press f => simp [noteStep]
  | timerFire cnt =>
    simp only [noteStep]
    split_ifs <;> simp

/-- An event sequence never decreases the activation counter. -/
theorem noteRun_counter_le (evs : List NoteEvt) (s : AudioState) :
    s.soundingKeys ≤ (noteRun s evs).soundingKeys := by
  induction evs generalizing s with
  | nil => exact le_refl _
  | cons e rest ih =>
    exact le_trans (noteStep_counter_le s e) (ih (noteStep s e))

/-- C4: a scheduled stop runs `AudioContextManager.stop()` only when the
activation counter at firing time equals the counter captured at
scheduling time; consequently, after key X is pressed (capturing `cx`),
any later press of key Y makes the counter exceed `cx` forever, so X's
timer firing afterwards is a strict no-op and never stops Y's audio. -/
theorem c4_stale_timer (s0 : AudioState) (fX fY : ℚ) (mid post : List NoteEvt)
    (s : AudioState) (cnt : Nat) :
    (noteStep
        (noteRun (noteStep (noteRun (noteStep s0 (NoteEvt.press fX)) mid)
          (NoteEvt.press fY)) post)
        (NoteEvt.timerFire (noteStep s0 (NoteEvt.press fX)).soundingKeys) =
      noteRun (noteStep (noteRun (noteStep s0 (NoteEvt.press fX)) mid)
        (NoteEvt.press fY)) post)
    ∧ (s.soundingKeys ≠ cnt → noteStep s (NoteEvt.timerFire cnt) = s)
    ∧ (s.soundingKeys = cnt →
        noteStep s (NoteEvt.timerFire cnt) = { s with frequency := 0 }) := by
  refine ⟨?_, fun h => by simp [noteStep, h], fun h => by simp [noteStep, h]⟩
  set sX := noteStep s0 (NoteEvt.press fX) with hsX
  set sY := noteStep (noteRun sX mid) (NoteEvt.press fY) with hsY
  have hx : sX.soundingKeys ≤ (noteRun sX mid).soundingKeys := noteRun_counter_le mid sX
  have hy : (noteRun sX mid).soundingKeys < sY.soundingKeys := by
    rw [hsY]; simp [noteStep]
  have hpost : sY.soundingKeys ≤ (noteRun sY post).soundingKeys := noteRun_counter_le post sY
  have hne : (noteRun sY post).soundingKeys ≠ sX.soundingKeys := by omega
  simp [noteStep, hne]

/-- C4 witness: a timer whose captured counter is stale does not change
the audio state; one whose counter matches stops the tone. -/
theorem c4_stale_timer_witness :
    noteStep { soundingKeys := 5, frequency := 440 } (NoteEvt.timerFire 3) =
        { soundingKeys := 5, frequency := 440 }
    ∧ noteStep { soundingKeys := 5, frequency := 440 } (NoteEvt.timerFire 5) =
        { soundingKeys := 5, frequency := 0 } :=
  ⟨(c4_stale_timer { soundingKeys := 0, frequency := 0 } 1 1 [] []
      { soundingKeys := 5, frequency := 440 } 3).2.1 (by decide),
   (c4_stale_timer { soundingKeys := 0, frequency := 0 } 1 1 [] []
      { soundingKeys := 5, frequency := 440 } 5).2.2 rfl⟩

/-- The key numbers recorded for the 36-key piano are `28, 29, ..., 63`. -/
theorem noteKeys36 :
    (createNotesArray 36).map Prod.snd =
      (List.range 36).map (fun i : ℕ => 28 + (i : Int)) := by
  decide

/-- Strict monotonicity of the frequency formula in the key number. -/
theorem freqOfKey_lt (a b : Int) (h : a < b) : freqOfKey a < freqOfKey b := by
  unfold freqOfKey
  have h2 : ((a : ℝ) - 49) / 12 < ((b : ℝ) - 49) / 12 := by
    have hk : (a : ℝ) < (b : ℝ) := by exact_mod_cast h
    linarith
  have h3 := Real.rpow_lt_rpow_of_exponent_lt (by norm_num : (1 : ℝ) < 2) h2
  nlinarith

/-- Every frequency of a key number at most 63 is at most 1760 Hz
(`440 * 2^2`, using `(k - 49) / 12 ≤ 2`). -/
theorem freqOfKey_le_1760 (k : Int) (h : k ≤ 63) : freqOfKey k ≤ 1760 := by
  unfold freqOfKey
  have h2 : ((k : ℝ) - 49) / 12 ≤ 2 := by
    have hk : (k : ℝ) ≤ 63 := by exact_mod_cast h
    linarith
  have h3 : (2 : ℝ) ^ (((k : ℝ) - 49) / 12) ≤ (2 : ℝ) ^ (2 : ℝ) :=
    Real.rpow_le_rpow_of_exponent_le (by norm_num) h2
  have h40 : (2 : ℝ) ^ (2 : ℝ) = (2 : ℝ) ^ (2 : ℕ) := by
    rw [← Real.rpow_natCast (2 : ℝ) 2]
    norm_num
  have h4 : (2 : ℝ) ^ (2 : ℝ) = 4 := by rw [h40]; norm_num
  nlinarith

/-- The `noteFreq_` array factors through the recorded key numbers. -/
theorem noteFreq_eq_map_keys (nKeys : Nat) :
    noteFreq nKeys = ((createNotesArray nKeys).map Prod.snd).map freqOfKey := by
  simp [noteFreq, List.map_map]

/-- C2 (counterexample): the first entry of the 36-key table has the
frequency of piano key 28 (about 130.81 Hz), which is strictly below —
hence not equal to — the claimed `440 * 2^((40 - 49) / 12)`
(about 261.63 Hz; key 40 is the start key of the 12-key piano, not the
36-key one). -/
theorem c2_counterexample :
    (noteFreq 36).head? = some (freqOfKey 28)
    ∧ freqOfKey 28 < 440 * (2 : ℝ) ^ (((40 : ℝ) - 49) / 12)
    ∧ (noteFreq 36).head? ≠ some (440 * (2 : ℝ) ^ (((40 : ℝ) - 49) / 12)) := by
  have h40 : freqOfKey 40 = 440 * (2 : ℝ) ^ (((40 : ℝ) - 49) / 12) := by
    unfold freqOfKey
    norm_num
  have hlt : freqOfKey 28 < freqOfKey 40 := freqOfKey_lt 28 40 (by norm_num)
  have hhead : (noteFreq 36).head? = some (freqOfKey 28) := by
    rw [noteFreq_eq_map_keys, noteKeys36]
    rfl
  refine ⟨hhead, h40 ▸ hlt, ?_⟩
  rw [hhead]
  intro hc
  exact absurd (Option.some.inj hc) (ne_of_lt (h40 ▸ hlt))

/-- C2 (amended): the 36-key table has exactly 36 entries, ordered by
ascending key index starting at piano key 28, with
`frequency(i) = 440 * 2^((28 + i - 49) / 12)`; the first entry is named
`'Low C'` with frequency `440 * 2^((28 - 49) / 12)` (about 130.81 Hz,
not the claimed 261.63 Hz); the frequencies are strictly increasing. -/
theorem c2_note_table :
    (createNotesArray 36).length = 36
    ∧ (noteNames 36).head? = some "Low C"
    ∧ (noteFreq 36).head? = some (440 * (2 : ℝ) ^ (((28 : ℝ) - 49) / 12))
    ∧ (∀ i, i < 36 → (noteFreq 36).get? i = some (freqOfKey (28 + (i : Int))))
    ∧ (noteFreq 36).Pairwise (· < ·) := by
  refine ⟨by decide, by decide, ?_, ?_, ?_⟩
  · have hhead : (noteFreq 36).head? = some (freqOfKey 28) := by
      rw [noteFreq_eq_map_keys, noteKeys36]
      rfl
    rw [hhead]
    unfold freqOfKey
    norm_num
  · intro i hi
    rw [noteFreq_eq_map_keys, noteKeys36]
    simp [List.getElem?_map, List.getElem?_range, hi]
  · rw [noteFreq_eq_map_keys]
    refine List.pairwise_map.mpr ?_
    have hkeys : ((createNotesArray 36).map Prod.snd).Pairwise (· < ·) := by decide
    exact hkeys.imp (fun h => freqOfKey_lt _ _ h)

/-- C2 witness: the 28th entry (index 27) carries the frequency of piano
key 55, instantiating the ascending-key-index formula. -/
theorem c2_note_table_witness :
    (noteFreq 36).get? 27 = some (freqOfKey 55) := by
  have h := c2_note_table.2.2.2.1 27 (by norm_num)
  norm_num at h
  exact h

/-- If no table entry is within `eps` of the value, the scan finds
nothing. -/
theorem scanNotes_eq_none (eps : ℝ) (l : List (String × ℝ)) (v : ℝ)
    (h : ∀ p ∈ l, ¬ |p.2 - v| < eps) : scanNotes eps l v = none := by
  induction l with
  | nil => rfl
  | cons e rest ih =>
    rw [scanNotes]
    rw [if_neg (h e (List.mem_cons_self e rest))]
    exact ih (fun p hp => h p (List.mem_cons_of_mem e hp))

/-- A successful scan returns the name of a table entry within `eps` of
the value. -/
theorem scanNotes_eq_some (eps : ℝ) (l : List (String × ℝ)) (v : ℝ) (nm : String)
    (h : scanNotes eps l v = some nm) :
    ∃ p ∈ l, p.1 = nm ∧ |p.2 - v| < eps := by
  induction l with
  | nil => exact absurd h (by rw [scanNotes]; exact Option.noConfusion)
  | cons e rest ih =>
    rw [scanNotes] at h
    by_cases he : |e.2 - v| < eps
    · rw [if_pos he] at h
      exact ⟨e, List.mem_cons_self e rest, Option.some.inj h, he⟩
    · rw [if_neg he] at h
      obtain ⟨p, hp, hnm, hlt⟩ := ih h
      exact ⟨p, List.mem_cons_of_mem e hp, hnm, hlt⟩

/-- If some table entry is within `eps` of the value, the scan finds one. -/
theorem scanNotes_isSome (eps : ℝ) (l : List (String × ℝ)) (v : ℝ)
    (h : ∃ p ∈ l, |p.2 - v| < eps) : ∃ nm, scanNotes eps l v = some nm := by
  induction l with
  | nil => simp at h
  | cons e rest ih =>
    rw [scanNotes]
    by_cases he : |e.2 - v| < eps
    · exact ⟨e.1, by rw [if_pos he]⟩
    · rw [if_neg he]
      obtain ⟨p, hp, hlt⟩ := h
      rcases List.mem_cons.mp hp with rfl | hp2
      · exact absurd hlt he
      · exact ih ⟨p, hp2, hlt⟩

/-- No frequency of the 36-key table is within 1 Hz of 10000: they are
all at most 1760 Hz (the key numbers stop at 63). -/
theorem no_note_near_10000 :
    ∀ p ∈ (noteNames 36).zip (noteFreq 36), ¬ |p.2 - ((10000 : ℚ) : ℝ)| < 1 := by
  rintro ⟨nm, f⟩ hp
  have hf : f ∈ noteFreq 36 := (List.of_mem_zip hp).2
  rw [noteFreq_eq_map_keys] at hf
  obtain ⟨k, hk, hfk⟩ := List.mem_map.mp hf
  have hk63 : k ≤ 63 := by
    have hall : ∀ x ∈ (createNotesArray 36).map Prod.snd, x ≤ 63 := by decide
    exact hall k hk
  have hb : f ≤ 1760 := hfk ▸ freqOfKey_le_1760 k hk63
  intro habs
  have h1 : ((10000 : ℚ) : ℝ) - f ≤ |f - ((10000 : ℚ) : ℝ)| := by
    rw [abs_sub_comm]
    exact le_abs_self _
  have h2 : ((10000 : ℚ) : ℝ) = 10000 := by norm_num
  rw [h2] at h1 habs
  simp only at h1 habs
  linarith

/-- C6 (counterexample): with the 36-key table and stored value 10000,
the field displays `'10000 Hz'` — the raw value string with the unit —
not `'10000.00 Hz'`, the value rounded to two decimals as the claim
states (two-decimal rounding is what `getText` produces, without a
unit, for the collapsed block). -/
theorem c6_counterexample :
    fieldNoteDisplay 36 10000 = "10000 Hz"
    ∧ toFixed2 (10000 : ℚ) ++ " Hz" = "10000.00 Hz"
    ∧ fieldNoteDisplay 36 10000 ≠ toFixed2 (10000 : ℚ) ++ " Hz" := by
  have h1 : fieldNoteDisplay 36 10000 = jsNumToString 10000 ++ " Hz" := by
    unfold fieldNoteDisplay getNoteName
    rw [scanNotes_eq_none 1 _ _ no_note_near_10000]
  have h2 : jsNumToString (10000 : ℚ) ++ " Hz" = "10000 Hz" := by decide
  have h3 : toFixed2 (10000 : ℚ) ++ " Hz" = "10000.00 Hz" := by decide
  refine ⟨h1.trans h2, h3, ?_⟩
  rw [h1.trans h2, h3]
  decide

/-- C6 (amended): when the stored value lies within the 1 Hz tolerance
of some generated note frequency, the field displays a matching note's
name; otherwise it displays the raw value string suffixed with
`' Hz'` (not rounded); the two-decimal rounding, with no unit, is the
collapsed-block text `getText`. -/
theorem c6_display_text (q : ℚ) :
    ((∃ p ∈ (noteNames 36).zip (noteFreq 36), |p.2 - (q : ℝ)| < 1) →
      ∃ p ∈ (noteNames 36).zip (noteFreq 36),
        p.1 = fieldNoteDisplay 36 q ∧ |p.2 - (q : ℝ)| < 1)
    ∧ ((∀ p ∈ (noteNames 36).zip (noteFreq 36), ¬ |p.2 - (q : ℝ)| < 1) →
      fieldNoteDisplay 36 q = jsNumToString q ++ " Hz")
    ∧ fieldNoteGetText q = toFixed2 q := by
  refine ⟨fun h => ?_, fun h => ?_, rfl⟩
  · obtain ⟨nm, hnm⟩ := scanNotes_isSome 1 _ _ h
    obtain ⟨p, hp, hpn, hplt⟩ := scanNotes_eq_some 1 _ _ nm hnm
    refine ⟨p, hp, ?_, hplt⟩
    unfold fieldNoteDisplay getNoteName
    rw [hnm, hpn]
  · unfold fieldNoteDisplay getNoteName
    rw [scanNotes_eq_none 1 _ _ h]

/-- C6 witness: at stored value 10000 no table entry is within
tolerance, and the displayed text is the raw string plus the unit. -/
theorem c6_display_text_witness :
    fieldNoteDisplay 36 10000 = jsNumToString 10000 ++ " Hz" :=
  (c6_display_text 10000).2.1 no_note_near_10000

/-- C7 witness: instantiating the left-to-right note-picker clamp at
`noteClampInput` (overflowing right edge) yields the overflow-plus-30
shift. -/
theorem c7_horizontal_clamp_witness :
    (notePickerWebOffsets noteClampInput).1 =
      (if noteClampInput.xyX + noteClampInput.pianoW >
          noteClampInput.winW + noteClampInput.scrX
       then -(noteClampInput.xyX + noteClampInput.pianoW -
          (noteClampInput.winW + noteClampInput.scrX)) - 30
       else 0) :=
  (c7_horizontal_clamp
    { xyX := 0, xyY := 0, bbW := 0, bbH := 0, contW := 0, contH := 0, winW := 0,
      winH := 0, scrX := 0, scrY := 0, checkmarkOverhang := 0, rtl := false }
    noteClampInput).2.2.1 rfl
